import Mathlib

/-!
Verification of the polygon-arbitrage-bot core (src/main.rs).

The bot loads a JSON configuration, then loops forever: it fetches a
(simulated) WETH/USDC price from each of the first two configured DEXes,
orders the pair as (expensive, cheap), and runs a pure opportunity check
that computes gross and net profit and compares the net profit against a
configured threshold.

Modelling conventions:
- Rust f64 currency arithmetic is modelled over the rationals.
- The random sample drawn by rand is an explicit parameter r, with the
  interval bound 0 <= r < 1 stated as a hypothesis where needed.
- A Rust panic (out-of-bounds index into config.dexes) is modelled as
  the none case of an Option-valued tick.
- Printing is side effect only; the printed decision is modelled as data
  (the ArbReport record and the TickOutcome variant).
-/

/-- Mirrors struct Dex in src/main.rs (lines 20-24). -/
structure Dex where
  name : String
  router_address : String
deriving DecidableEq

/-- Mirrors struct Tokens in src/main.rs (lines 26-30). -/
structure Tokens where
  usdc : String
  weth : String
deriving DecidableEq

/-- Mirrors struct Config in src/main.rs (lines 11-18): the deserialized
shape of config.json. The trade amount is kept as a string, as in the
source, and parsed at startup. Note the absence of any fee-estimate,
poll-interval or per-fetch-timeout field. -/
structure Config where
  rpc_url : String
  dexes : List Dex
  tokens : Tokens
  min_profit_threshold_usd : ℚ
  fixed_trade_amount_weth : String
deriving DecidableEq

/-- The hardcoded simulated gas cost of $2 (src/main.rs line 140). This is
the only fee estimate in the program; it is not read from configuration. -/
def simulated_gas_cost_usd : ℚ := 2

/-- The decision and intermediate quantities computed and printed by
check_arbitrage_opportunity (src/main.rs lines 128-154). The Rust function
returns unit and prints; the record captures exactly the data it derives:
the expensive (sell) and cheap (buy) sides as passed in, the price
difference, gross and net profit, and whether the opportunity message was
printed. -/
structure ArbReport where
  sell_dex : String
  sell_price : ℚ
  buy_dex : String
  buy_price : ℚ
  price_difference : ℚ
  gross_profit : ℚ
  net_profit : ℚ
  is_opportunity : Bool
deriving DecidableEq

/-- Shallow embedding of check_arbitrage_opportunity (src/main.rs lines
128-154): price_difference = expensive - cheap, gross = difference * amount,
net = gross - simulated_gas_cost_usd, opportunity iff net > threshold
(strict comparison, line 146). -/
def check_arbitrage_opportunity (expensive_dex : String) (expensive_price : ℚ)
    (cheap_dex : String) (cheap_price : ℚ)
    (trade_amount : ℚ) (min_profit_threshold : ℚ) : ArbReport :=
  let price_difference := expensive_price - cheap_price
  let gross_profit := price_difference * trade_amount
  let net_profit := gross_profit - simulated_gas_cost_usd
  { sell_dex := expensive_dex
    sell_price := expensive_price
    buy_dex := cheap_dex
    buy_price := cheap_price
    price_difference := price_difference
    gross_profit := gross_profit
    net_profit := net_profit
    is_opportunity := decide (net_profit > min_profit_threshold) }

/-- Shallow embedding of get_price (src/main.rs lines 106-125). The
provider argument is unused in the source and omitted; the token
arguments are kept (they are unused, as in the source). The call to
rand is modelled by the explicit sample r, one fresh sample per fetch,
with r in [0, 1) as a hypothesis where relevant. The function always
returns Ok. -/
def get_price (dex : Dex) (_token_in _token_out : String) (r : ℚ) :
    Except String ℚ :=
  let simulated_price : ℚ :=
    if dex.name = "Uniswap V3" then 3500 + r * 10
    else if dex.name = "QuickSwap" then 3500 + r * 10
    else 3500
  Except.ok simulated_price

/-- Outcome of one loop iteration after both fetches resolved (src/main.rs
lines 57-84): either the report of the arbitrage check, or the error
message printed when at least one fetch failed. -/
inductive TickOutcome where
  | arbitrage (rep : ArbReport)
  | fetchError
deriving DecidableEq

/-- Shallow embedding of the body of the main loop from the point where the
two fetch results are in hand (src/main.rs lines 57-84): if both are Ok the
prices are ordered as (expensive, cheap) by the strict comparison
price_a > price_b and check_arbitrage_opportunity runs; otherwise the
fetch-error message is printed and no evaluation happens. -/
def tick_eval (dexA dexB : Dex) (price_dex_a price_dex_b : Except String ℚ)
    (fixed_trade_amount min_profit_threshold : ℚ) : TickOutcome :=
  match price_dex_a, price_dex_b with
  | Except.ok price_a, Except.ok price_b =>
    if price_a > price_b then
      TickOutcome.arbitrage (check_arbitrage_opportunity dexA.name price_a
        dexB.name price_b fixed_trade_amount min_profit_threshold)
    else
      TickOutcome.arbitrage (check_arbitrage_opportunity dexB.name price_b
        dexA.name price_a fixed_trade_amount min_profit_threshold)
  | _, _ => TickOutcome.fetchError

/-- Shallow embedding of one full iteration of the main loop (src/main.rs
lines 49-88). The source indexes config.dexes[0] and config.dexes[1]
without a bounds check; a Rust index panic is modelled as none. rA and rB
are the two rand samples consumed by the two get_price calls. -/
def tick (config : Config) (fixed_trade_amount rA rB : ℚ) :
    Option TickOutcome :=
  match List.get? config.dexes 0, List.get? config.dexes 1 with
  | some dexA, some dexB =>
    let price_dex_a := get_price dexA config.tokens.weth config.tokens.usdc rA
    let price_dex_b := get_price dexB config.tokens.weth config.tokens.usdc rB
    some (tick_eval dexA dexB price_dex_a price_dex_b fixed_trade_amount
      config.min_profit_threshold_usd)
  | _, _ => none

/-- Runs the main loop for one tick per element of samples (each element the
pair of rand samples of that tick), collecting the outcomes; none if some
tick panics. Models the unbounded loop of src/main.rs lines 49-88 by finite
prefixes; the sleep between iterations has no observable effect in the
model. -/
def run_ticks (config : Config) (fixed_trade_amount : ℚ) :
    List (ℚ × ℚ) → Option (List TickOutcome)
  | [] => some []
  | (rA, rB) :: rest =>
    match tick config fixed_trade_amount rA rB with
    | none => none
    | some o => (run_ticks config fixed_trade_amount rest).map (fun os => o :: os)

/-- Accumulator loop for parsing a run of decimal digits; fails on any
non-digit character. -/
def parseDigitsAux : List Char → Nat → Option Nat
  | [], acc => some acc
  | c :: rest, acc =>
    if c.isDigit then parseDigitsAux rest (10 * acc + (c.toNat - 48)) else none

/-- Parses a nonempty run of decimal digits to a natural number. -/
def parseNatStr (cs : List Char) : Option Nat :=
  match cs with
  | [] => none
  | _ => parseDigitsAux cs 0

/-- Models the call config.fixed_trade_amount_weth.parse f64 at
src/main.rs line 44 on the plain decimal forms an arbitrage config uses:
an optional leading minus sign, a nonempty integer digit run, and an
optional fractional digit run after a dot. Scientific notation and the
special float values are outside the modelled subset. The point the model
preserves is that parsing checks numeric syntax only: any sign and any
magnitude, including negative and zero amounts, parse successfully. -/
def parseDecimal (s : String) : Except String ℚ :=
  let signed := s.toList
  let neg : Bool := match signed with
    | '-' :: _ => true
    | _ => false
  let cs := match signed with
    | '-' :: rest => rest
    | other => other
  let intPart := cs.takeWhile (fun c => c ≠ '.')
  let rest := cs.dropWhile (fun c => c ≠ '.')
  let fracVal : Option ℚ :=
    match rest with
    | [] => some 0
    | _ :: frac =>
      match frac with
      | [] => some 0
      | _ => (parseNatStr frac).map (fun n => (n : ℚ) / (10 : ℚ) ^ frac.length)
  match parseNatStr intPart, fracVal with
  | some i, some f =>
    let v : ℚ := (i : ℚ) + f
    Except.ok (if neg then -v else v)
  | _, _ => Except.error "invalid float literal"

/-- Models ethers Address.from_str used at src/main.rs lines 42-43: a
20-byte hex address, written as 40 hex digits with an optional 0x prefix.
External library behaviour, modelled only as far as the startup path
needs: it validates hex syntax and length, nothing about the semantics of
the address. -/
def address_from_str (s : String) : Except String Unit :=
  let cs := match s.toList with
    | '0' :: 'x' :: rest => rest
    | other => other
  if cs.length == 40 && cs.all (fun c => c.isDigit || ('a' ≤ c && c ≤ 'f') || ('A' ≤ c && c ≤ 'F'))
  then Except.ok ()
  else Except.error "invalid address"

/-- The state main builds before entering the loop: the parsed trade
amount (src/main.rs line 44). The converted addresses carry no further
information once validated, and the provider is external. -/
structure BotState where
  fixed_trade_amount : ℚ
deriving DecidableEq

/-- Shallow embedding of the fallible startup steps of main after config
deserialization (src/main.rs lines 42-44): convert the two token address
strings, then parse the trade amount string. Config file loading and RPC
provider construction (lines 38-39) are external side effects and are not
modelled; deserialization itself only requires the declared fields to be
present. Note that nothing here inspects config.dexes or the sign of the
trade amount. -/
def startup (config : Config) : Except String BotState :=
  match address_from_str config.tokens.usdc with
  | Except.error e => Except.error e
  | Except.ok _ =>
    match address_from_str config.tokens.weth with
    | Except.error e => Except.error e
    | Except.ok _ =>
      match parseDecimal config.fixed_trade_amount_weth with
      | Except.error e => Except.error e
      | Except.ok amt => Except.ok ⟨amt⟩

/-- A well-formed two-venue configuration, used to instantiate the
universally quantified theorems at a concrete input. -/
def cfg2 : Config :=
  { rpc_url := "https://polygon-rpc.com"
    dexes := [⟨"Uniswap V3", "0xE592427A0AEce92De3Edee1F18E0157C05861564"⟩,
              ⟨"QuickSwap", "0xa5E0829CaCEd8fFDD4De3c43696c57F7D7A678ff"⟩]
    tokens := ⟨"0x2791Bca1f2de4661ED88A30C99A7a9449Aa84174",
               "0x7ceB23fD6bC0adD59E62ac25578270cFf1b9f619"⟩
    min_profit_threshold_usd := 5
    fixed_trade_amount_weth := "1.0" }

/-- A configuration with a single venue and a negative trade amount. Every
field deserializes, both token addresses convert, and the amount string
parses, so startup accepts it; the first loop iteration then indexes
config.dexes[1] out of bounds. -/
def badConfig : Config :=
  { rpc_url := "https://polygon-rpc.com"
    dexes := [⟨"QuickSwap", "0xa5E0829CaCEd8fFDD4De3c43696c57F7D7A678ff"⟩]
    tokens := ⟨"0x2791Bca1f2de4661ED88A30C99A7a9449Aa84174",
               "0x7ceB23fD6bC0adD59E62ac25578270cFf1b9f619"⟩
    min_profit_threshold_usd := 5
    fixed_trade_amount_weth := "-1" }

/-- Concrete evaluation of startup on badConfig: it is accepted, with the
parsed trade amount -1. -/
theorem startup_badConfig_ok : startup badConfig = Except.ok ⟨-1⟩ := by
  have h1 : address_from_str badConfig.tokens.usdc = Except.ok () := rfl
  have h2 : address_from_str badConfig.tokens.weth = Except.ok () := rfl
  have h3 : parseDecimal badConfig.fixed_trade_amount_weth = Except.ok (-1) := by
    have he : badConfig.fixed_trade_amount_weth = "-1" := rfl
    rw [he]
    simp [parseDecimal, parseNatStr, parseDigitsAux]
  simp [startup, h1, h2, h3]

theorem startup_cfg2_ok : startup cfg2 = Except.ok ⟨1⟩ := by
  have h1 : address_from_str cfg2.tokens.usdc = Except.ok () := rfl
  have h2 : address_from_str cfg2.tokens.weth = Except.ok () := rfl
  have h3 : parseDecimal cfg2.fixed_trade_amount_weth = Except.ok 1 := by
    have he : cfg2.fixed_trade_amount_weth = "1.0" := rfl
    rw [he]
    simp [parseDecimal, parseNatStr, parseDigitsAux]
  simp [startup, h1, h2, h3]

example :
    (check_arbitrage_opportunity "A" 3505 "B" 3498 1 5).net_profit = 5 := by
  norm_num [check_arbitrage_opportunity, simulated_gas_cost_usd]

example :
    (check_arbitrage_opportunity "A" 3505 "B" 3498 1 5).is_opportunity = false := by
  norm_num [check_arbitrage_opportunity, simulated_gas_cost_usd]

example :
    tick_eval ⟨"A", "ra"⟩ ⟨"B", "rb"⟩ (Except.ok 3500) (Except.ok 3500) 1 (-3)
      = TickOutcome.arbitrage (check_arbitrage_opportunity "B" 3500 "A" 3500 1 (-3)) := by
  norm_num [tick_eval]

example :
    (check_arbitrage_opportunity "B" 3500 "A" 3500 1 (-3)).is_opportunity = true := by
  norm_num [check_arbitrage_opportunity, simulated_gas_cost_usd]

/-- C4: for every sell (expensive) price, buy (cheap) price, trade amount
and threshold, check_arbitrage_opportunity computes gross_profit as
(sellPrice - buyPrice) * tradeAmount, net_profit as gross_profit minus the
fee estimate (the hardcoded $2 simulated gas cost), and its decision is
exactly the strict comparison of that net_profit against the threshold. -/
theorem C4_profit_formulas (expensive_dex : String) (expensive_price : ℚ)
    (cheap_dex : String) (cheap_price trade_amount min_profit_threshold : ℚ) :
    (check_arbitrage_opportunity expensive_dex expensive_price cheap_dex cheap_price
        trade_amount min_profit_threshold).gross_profit
      = (expensive_price - cheap_price) * trade_amount
    ∧ (check_arbitrage_opportunity expensive_dex expensive_price cheap_dex cheap_price
        trade_amount min_profit_threshold).net_profit
      = (check_arbitrage_opportunity expensive_dex expensive_price cheap_dex cheap_price
          trade_amount min_profit_threshold).gross_profit - simulated_gas_cost_usd
    ∧ ((check_arbitrage_opportunity expensive_dex expensive_price cheap_dex cheap_price
          trade_amount min_profit_threshold).is_opportunity = true
        ↔ (check_arbitrage_opportunity expensive_dex expensive_price cheap_dex cheap_price
            trade_amount min_profit_threshold).net_profit > min_profit_threshold) := by
  refine ⟨rfl, rfl, ?_⟩
  simp [check_arbitrage_opportunity]

/-- C2: whenever the computed net profit equals the threshold exactly the
decision is NoOpportunity (the comparison at src/main.rs line 146 is
strict); in particular, prices 3505 and 3498 with trade amount 1 and
threshold 5 give gross profit 7, net profit 5 and no opportunity. -/
theorem C2_threshold_exclusive :
    (∀ (expensive_dex : String) (expensive_price : ℚ) (cheap_dex : String)
        (cheap_price trade_amount min_profit_threshold : ℚ),
      (check_arbitrage_opportunity expensive_dex expensive_price cheap_dex cheap_price
          trade_amount min_profit_threshold).net_profit = min_profit_threshold →
      (check_arbitrage_opportunity expensive_dex expensive_price cheap_dex cheap_price
          trade_amount min_profit_threshold).is_opportunity = false)
    ∧ tick_eval ⟨"A", "ra"⟩ ⟨"B", "rb"⟩ (Except.ok 3505) (Except.ok 3498) 1 5
        = TickOutcome.arbitrage (check_arbitrage_opportunity "A" 3505 "B" 3498 1 5)
    ∧ (check_arbitrage_opportunity "A" 3505 "B" 3498 1 5).gross_profit = 7
    ∧ (check_arbitrage_opportunity "A" 3505 "B" 3498 1 5).net_profit = 5
    ∧ (check_arbitrage_opportunity "A" 3505 "B" 3498 1 5).is_opportunity = false := by
  refine ⟨?_, by norm_num [tick_eval],
    by norm_num [check_arbitrage_opportunity],
    by norm_num [check_arbitrage_opportunity, simulated_gas_cost_usd],
    by norm_num [check_arbitrage_opportunity, simulated_gas_cost_usd]⟩
  intro ed ep cd cp ta th h
  simp only [check_arbitrage_opportunity] at h ⊢
  simp [h]

/-- C2 witness: a concrete boundary input with net profit exactly equal to
the threshold, evaluated through the theorem. -/
theorem C2_witness :
    (check_arbitrage_opportunity "E" 3507 "C" 3500 1 5).is_opportunity = false :=
  C2_threshold_exclusive.1 "E" 3507 "C" 3500 1 5
    (by norm_num [check_arbitrage_opportunity, simulated_gas_cost_usd])

/-- C5: if at least one of the two fetch results is an error, the loop body
takes the error branch (src/main.rs lines 81-84): the outcome is the
fetch-error report, never an arbitrage report, and
check_arbitrage_opportunity is not invoked. -/
theorem C5_insufficient_quotes (dexA dexB : Dex)
    (price_dex_a price_dex_b : Except String ℚ)
    (fixed_trade_amount min_profit_threshold : ℚ)
    (h : (∃ e, price_dex_a = Except.error e) ∨ (∃ e, price_dex_b = Except.error e)) :
    tick_eval dexA dexB price_dex_a price_dex_b fixed_trade_amount min_profit_threshold
      = TickOutcome.fetchError := by
  rcases h with ⟨e, he⟩ | ⟨e, he⟩ <;> subst he
  · cases price_dex_b <;> rfl
  · cases price_dex_a <;> rfl

/-- C5 witness: one venue timed out, the other returned a quote; the tick
reports the fetch error. -/
theorem C5_witness :
    tick_eval ⟨"Uniswap V3", "r1"⟩ ⟨"QuickSwap", "r2"⟩
      (Except.error "timeout") (Except.ok 3500) 1 5 = TickOutcome.fetchError :=
  C5_insufficient_quotes ⟨"Uniswap V3", "r1"⟩ ⟨"QuickSwap", "r2"⟩
    (Except.error "timeout") (Except.ok 3500) 1 5 (Or.inl ⟨"timeout", rfl⟩)

/-- C3: for distinct prices, whichever order the two venues are passed in,
the loop body hands check_arbitrage_opportunity the maximum price and its
venue as the expensive (sell) side and the minimum price and its venue as
the cheap (buy) side, and both orders produce the identical report. -/
theorem C3_max_sell_min_buy (dexA dexB : Dex)
    (price_a price_b fixed_trade_amount min_profit_threshold : ℚ)
    (h : price_a ≠ price_b) :
    ∃ rep,
      tick_eval dexA dexB (Except.ok price_a) (Except.ok price_b)
        fixed_trade_amount min_profit_threshold = TickOutcome.arbitrage rep
      ∧ tick_eval dexB dexA (Except.ok price_b) (Except.ok price_a)
          fixed_trade_amount min_profit_threshold = TickOutcome.arbitrage rep
      ∧ rep.sell_price = max price_a price_b
      ∧ rep.buy_price = min price_a price_b
      ∧ ((price_b < price_a ∧ rep.sell_dex = dexA.name ∧ rep.buy_dex = dexB.name)
         ∨ (price_a < price_b ∧ rep.sell_dex = dexB.name ∧ rep.buy_dex = dexA.name)) := by
  rcases lt_or_gt_of_ne h with hlt | hgt
  · refine ⟨check_arbitrage_opportunity dexB.name price_b dexA.name price_a
        fixed_trade_amount min_profit_threshold,
      ?_, ?_, ?_, ?_, Or.inr ⟨hlt, rfl, rfl⟩⟩
    · simp [tick_eval, not_lt.mpr hlt.le]
    · simp [tick_eval, hlt]
    · exact (max_eq_right hlt.le).symm
    · exact (min_eq_left hlt.le).symm
  · refine ⟨check_arbitrage_opportunity dexA.name price_a dexB.name price_b
        fixed_trade_amount min_profit_threshold,
      ?_, ?_, ?_, ?_, Or.inl ⟨hgt, rfl, rfl⟩⟩
    · simp [tick_eval, hgt]
    · simp [tick_eval, not_lt.mpr hgt.le]
    · exact (max_eq_left hgt.le).symm
    · exact (min_eq_right hgt.le).symm

/-- C3 witness: concrete distinct prices 3505 and 3498, both venue
orders. -/
theorem C3_witness :
    ∃ rep,
      tick_eval ⟨"A", "ra"⟩ ⟨"B", "rb"⟩ (Except.ok 3505) (Except.ok 3498) 1 5
        = TickOutcome.arbitrage rep
      ∧ tick_eval ⟨"B", "rb"⟩ ⟨"A", "ra"⟩ (Except.ok 3498) (Except.ok 3505) 1 5
          = TickOutcome.arbitrage rep
      ∧ rep.sell_price = max 3505 3498
      ∧ rep.buy_price = min 3505 3498
      ∧ (((3498 : ℚ) < 3505 ∧ rep.sell_dex = "A" ∧ rep.buy_dex = "B")
         ∨ ((3505 : ℚ) < 3498 ∧ rep.sell_dex = "B" ∧ rep.buy_dex = "A")) :=
  C3_max_sell_min_buy ⟨"A", "ra"⟩ ⟨"B", "rb"⟩ 3505 3498 1 5 (by norm_num)

/-- C1 counterexample: with both prices equal (a tie) the net profit is
minus the $2 gas cost, but with a threshold of -3 the strict comparison
net_profit > threshold holds and the code reports an Opportunity, while
the claim requires NoOpportunity for every threshold. -/
theorem C1_counterexample :
    tick_eval ⟨"A", "ra"⟩ ⟨"B", "rb"⟩ (Except.ok 3500) (Except.ok 3500) 1 (-3)
      = TickOutcome.arbitrage (check_arbitrage_opportunity "B" 3500 "A" 3500 1 (-3))
    ∧ (check_arbitrage_opportunity "B" 3500 "A" 3500 1 (-3)).net_profit
        = -simulated_gas_cost_usd
    ∧ (check_arbitrage_opportunity "B" 3500 "A" 3500 1 (-3)).is_opportunity = true := by
  refine ⟨by norm_num [tick_eval],
    by norm_num [check_arbitrage_opportunity, simulated_gas_cost_usd],
    by norm_num [check_arbitrage_opportunity, simulated_gas_cost_usd]⟩

/-- C1 (amended): for equal fetched prices and any trade amount, the loop
body reaches check_arbitrage_opportunity with the tied price on both
sides, the net profit is exactly minus the fee estimate, and --- provided
the threshold is at least minus the fee estimate --- the decision is
NoOpportunity. -/
theorem C1_tie_no_opportunity (dexA dexB : Dex)
    (p fixed_trade_amount min_profit_threshold : ℚ)
    (h : -simulated_gas_cost_usd ≤ min_profit_threshold) :
    tick_eval dexA dexB (Except.ok p) (Except.ok p)
        fixed_trade_amount min_profit_threshold
      = TickOutcome.arbitrage (check_arbitrage_opportunity dexB.name p dexA.name p
          fixed_trade_amount min_profit_threshold)
    ∧ (check_arbitrage_opportunity dexB.name p dexA.name p
        fixed_trade_amount min_profit_threshold).net_profit = -simulated_gas_cost_usd
    ∧ (check_arbitrage_opportunity dexB.name p dexA.name p
        fixed_trade_amount min_profit_threshold).is_opportunity = false := by
  refine ⟨by simp [tick_eval], ?_, ?_⟩
  · simp [check_arbitrage_opportunity, sub_self, zero_mul, zero_sub]
  · simp only [check_arbitrage_opportunity, sub_self, zero_mul, zero_sub,
      decide_eq_false_iff_not, gt_iff_lt, not_lt]
    exact h

/-- C1 witness: a tie at 3500 with trade amount 1 and threshold 5. -/
theorem C1_witness :
    tick_eval ⟨"A", "ra"⟩ ⟨"B", "rb"⟩ (Except.ok 3500) (Except.ok 3500) 1 5
      = TickOutcome.arbitrage (check_arbitrage_opportunity "B" 3500 "A" 3500 1 5)
    ∧ (check_arbitrage_opportunity "B" 3500 "A" 3500 1 5).net_profit
        = -simulated_gas_cost_usd
    ∧ (check_arbitrage_opportunity "B" 3500 "A" 3500 1 5).is_opportunity = false :=
  C1_tie_no_opportunity ⟨"A", "ra"⟩ ⟨"B", "rb"⟩ 3500 1 5
    (by norm_num [simulated_gas_cost_usd])

/-- C7 counterexample: a configuration with a single venue and the
negative trade amount -1 passes every fallible startup step, although the
claim requires at least two venues and a positive trade amount to be
enforced before the loop starts; there are also no fee-estimate,
poll-interval or per-fetch-timeout fields for startup to validate (see
Config). -/
theorem C7_counterexample :
    startup badConfig = Except.ok ⟨-1⟩
    ∧ badConfig.dexes.length = 1
    ∧ (-1 : ℚ) ≤ 0 :=
  ⟨startup_badConfig_ok, rfl, by norm_num⟩

/-- C7 (amended): startup succeeds exactly when the two token address
strings are valid addresses and the trade amount string parses as a
number; neither the number of venues nor the sign of the trade amount is
inspected, and the configuration carries no fee-estimate, poll-interval or
per-fetch-timeout field at all. -/
theorem C7_startup_checks (config : Config) :
    (startup config).isOk
      = ((address_from_str config.tokens.usdc).isOk
          && ((address_from_str config.tokens.weth).isOk
            && (parseDecimal config.fixed_trade_amount_weth).isOk)) := by
  cases h1 : address_from_str config.tokens.usdc <;>
    cases h2 : address_from_str config.tokens.weth <;>
      cases h3 : parseDecimal config.fixed_trade_amount_weth <;>
        simp [startup, h1, h2, h3, Except.isOk, Except.toBool]

/-- Unfolding lemma: a tick of a configuration with no venue panics on the
first index. -/
theorem tick_nil (url : String) (tokens : Tokens) (thr : ℚ) (amtStr : String)
    (ft rA rB : ℚ) :
    tick ⟨url, [], tokens, thr, amtStr⟩ ft rA rB = none := rfl

/-- Unfolding lemma: a tick of a configuration with exactly one venue
panics on the second index. -/
theorem tick_single (url : String) (d : Dex) (tokens : Tokens) (thr : ℚ)
    (amtStr : String) (ft rA rB : ℚ) :
    tick ⟨url, [d], tokens, thr, amtStr⟩ ft rA rB = none := rfl

/-- Unfolding lemma: with at least two venues a tick fetches from the
first two and evaluates. -/
theorem tick_cons_cons (url : String) (dA dB : Dex) (rest : List Dex)
    (tokens : Tokens) (thr : ℚ) (amtStr : String) (ft rA rB : ℚ) :
    tick ⟨url, dA :: dB :: rest, tokens, thr, amtStr⟩ ft rA rB
      = some (tick_eval dA dB
          (get_price dA tokens.weth tokens.usdc rA)
          (get_price dB tokens.weth tokens.usdc rB) ft thr) := rfl

/-- Unfolding lemma: get_price always returns Ok with the simulated
price. -/
theorem get_price_eq_ok (dex : Dex) (tIn tOut : String) (r : ℚ) :
    get_price dex tIn tOut r = Except.ok
      (if dex.name = "Uniswap V3" then 3500 + r * 10
       else if dex.name = "QuickSwap" then 3500 + r * 10
       else 3500) := rfl

/-- Helper: with at least two configured venues, a tick always resolves to
an outcome (the out-of-bounds panic cannot happen). -/
theorem tick_of_two_dexes (config : Config) (h : 2 ≤ config.dexes.length)
    (fixed_trade_amount rA rB : ℚ) :
    ∃ o, tick config fixed_trade_amount rA rB = some o := by
  rcases config with ⟨url, dexes, tokens, thr, amtStr⟩
  rcases dexes with _ | ⟨dA, _ | ⟨dB, rest⟩⟩
  · simp at h
  · simp at h
  · exact ⟨_, tick_cons_cons url dA dB rest tokens thr amtStr
      fixed_trade_amount rA rB⟩

/-- C9 counterexample: badConfig passes startup, so the loop starts; its
first tick indexes config.dexes[1] out of bounds and panics (none), so the
loop does not proceed to the next tick. -/
theorem C9_counterexample :
    startup badConfig = Except.ok ⟨-1⟩
    ∧ tick badConfig (-1) 0 0 = none :=
  ⟨startup_badConfig_ok, rfl⟩

/-- C9 (amended): provided the configuration lists at least two venues,
every tick resolves to an outcome --- no panic and no exit exists in the
loop body --- and the loop proceeds tick after tick: running any number of
ticks produces exactly one outcome per tick. -/
theorem C9_loop_runs_forever (config : Config) (h : 2 ≤ config.dexes.length)
    (fixed_trade_amount : ℚ) (samples : List (ℚ × ℚ)) :
    ∃ outs, run_ticks config fixed_trade_amount samples = some outs
      ∧ outs.length = samples.length := by
  induction samples with
  | nil => exact ⟨[], rfl, rfl⟩
  | cons s rest ih =>
    obtain ⟨outs, hrun, hlen⟩ := ih
    obtain ⟨rA, rB⟩ := s
    obtain ⟨o, ho⟩ := tick_of_two_dexes config h fixed_trade_amount rA rB
    refine ⟨o :: outs, ?_, by simp [hlen]⟩
    simp [run_ticks, ho, hrun]

/-- C9 witness: two ticks of the well-formed two-venue configuration. -/
theorem C9_witness :
    ∃ outs, run_ticks cfg2 1 [(0, 0), (1/2, 1/4)] = some outs
      ∧ outs.length = 2 :=
  C9_loop_runs_forever cfg2 (by norm_num [cfg2]) 1 [(0, 0), (1/2, 1/4)]

/-- C8 counterexample: the loop body performs no validity filtering on
successful fetch results: an Ok result carrying the non-positive price -1
flows straight into check_arbitrage_opportunity instead of being converted
into a fetch failure. -/
theorem C8_counterexample :
    tick_eval ⟨"Uniswap V3", "r1"⟩ ⟨"QuickSwap", "r2"⟩
        (Except.ok (-1)) (Except.ok 1) 1 5
      = TickOutcome.arbitrage
          (check_arbitrage_opportunity "QuickSwap" 1 "Uniswap V3" (-1) 1 5)
    ∧ (check_arbitrage_opportunity "QuickSwap" 1 "Uniswap V3" (-1) 1 5).buy_price ≤ 0 :=
  ⟨by norm_num [tick_eval], by norm_num [check_arbitrage_opportunity]⟩

/-- Helper: get_price always succeeds, and for a rand sample at least 0
its price is strictly positive. -/
theorem get_price_ok_pos (dex : Dex) (tIn tOut : String) (r : ℚ) (h : 0 ≤ r) :
    ∃ p, get_price dex tIn tOut r = Except.ok p ∧ 0 < p := by
  refine ⟨_, rfl, ?_⟩
  split_ifs <;> linarith

/-- C8 (amended): the code never converts an invalid price into a fetch
failure (see the counterexample), but every price get_price actually
produces is strictly positive, so in the program as written every
arbitrage report derived from real fetches carries strictly positive buy
and sell prices. Finiteness is a property of the float type and is outside
the rational model. -/
theorem C8_prices_positive (config : Config) (fixed_trade_amount rA rB : ℚ)
    (h0A : 0 ≤ rA) (h0B : 0 ≤ rB) (rep : ArbReport)
    (h : tick config fixed_trade_amount rA rB = some (TickOutcome.arbitrage rep)) :
    0 < rep.buy_price ∧ 0 < rep.sell_price := by
  rcases config with ⟨url, dexes, tokens, thr, amtStr⟩
  rcases dexes with _ | ⟨dA, _ | ⟨dB, rest⟩⟩
  · rw [tick_nil] at h
    exact Option.noConfusion h
  · rw [tick_single] at h
    exact Option.noConfusion h
  · obtain ⟨pa, hpa, hpaPos⟩ := get_price_ok_pos dA tokens.weth tokens.usdc rA h0A
    obtain ⟨pb, hpb, hpbPos⟩ := get_price_ok_pos dB tokens.weth tokens.usdc rB h0B
    rw [tick_cons_cons, hpa, hpb] at h
    simp only [Option.some.injEq] at h
    simp only [tick_eval] at h
    split_ifs at h with hcase <;>
      simp only [TickOutcome.arbitrage.injEq] at h <;> subst h <;>
        simp [check_arbitrage_opportunity]
    · exact ⟨hpbPos, hpaPos⟩
    · exact ⟨hpaPos, hpbPos⟩

/-- C8 witness: the two-venue configuration with both rand samples 0; the
resulting report prices are 3500 on both sides, strictly positive. -/
theorem C8_witness :
    0 < (check_arbitrage_opportunity "QuickSwap" 3500 "Uniswap V3" 3500 1 5).buy_price
    ∧ 0 < (check_arbitrage_opportunity "QuickSwap" 3500 "Uniswap V3" 3500 1 5).sell_price :=
  C8_prices_positive cfg2 1 0 0 le_rfl le_rfl
    (check_arbitrage_opportunity "QuickSwap" 3500 "Uniswap V3" 3500 1 5)
    (by
      have h0 : tick cfg2 1 0 0
          = some (tick_eval
              ⟨"Uniswap V3", "0xE592427A0AEce92De3Edee1F18E0157C05861564"⟩
              ⟨"QuickSwap", "0xa5E0829CaCEd8fFDD4De3c43696c57F7D7A678ff"⟩
              (Except.ok (3500 + 0 * 10)) (Except.ok (3500 + 0 * 10)) 1 5) := rfl
      rw [h0]
      norm_num [tick_eval, check_arbitrage_opportunity])

/-- Helper: when both fetch results are Ok the loop body always produces
an arbitrage report, never the fetch-error outcome. -/
theorem tick_eval_ok_ne_fetchError (dexA dexB : Dex) (pa pb ft th : ℚ) :
    tick_eval dexA dexB (Except.ok pa) (Except.ok pb) ft th
      ≠ TickOutcome.fetchError := by
  simp only [tick_eval]
  split <;> simp

/-- C10: get_price is infallible: it always returns Ok, with a price of
3500 + 10r --- hence within [3500, 3510] for a rand sample r in [0, 1) ---
for the two known venue names and exactly 3500 for any other name;
consequently the fetch-error branch of the main loop is unreachable: no
tick of any configuration ever yields the fetch-error outcome. -/
theorem C10_get_price_infallible :
    (∀ (dex : Dex) (tIn tOut : String) (r : ℚ), 0 ≤ r → r < 1 →
      ∃ p, get_price dex tIn tOut r = Except.ok p
        ∧ ((dex.name = "Uniswap V3" ∨ dex.name = "QuickSwap") →
            3500 ≤ p ∧ p ≤ 3510)
        ∧ (¬(dex.name = "Uniswap V3" ∨ dex.name = "QuickSwap") → p = 3500))
    ∧ ∀ (config : Config) (fixed_trade_amount rA rB : ℚ),
        tick config fixed_trade_amount rA rB ≠ some TickOutcome.fetchError := by
  constructor
  · intro dex tIn tOut r h0 h1
    by_cases hU : dex.name = "Uniswap V3"
    · exact ⟨3500 + r * 10, by simp [get_price, hU],
        fun _ => ⟨by linarith, by linarith⟩,
        fun hc => absurd (Or.inl hU) hc⟩
    · by_cases hQ : dex.name = "QuickSwap"
      · exact ⟨3500 + r * 10, by simp [get_price, hU, hQ],
          fun _ => ⟨by linarith, by linarith⟩,
          fun hc => absurd (Or.inr hQ) hc⟩
      · exact ⟨3500, by simp [get_price, hU, hQ],
          fun _ => ⟨le_refl _, by norm_num⟩, fun _ => rfl⟩
  · intro config ft rA rB
    rcases config with ⟨url, dexes, tokens, thr, amtStr⟩
    rcases dexes with _ | ⟨dA, _ | ⟨dB, rest⟩⟩
    · rw [tick_nil]
      exact fun hc => Option.noConfusion hc
    · rw [tick_single]
      exact fun hc => Option.noConfusion hc
    · intro hc
      rw [tick_cons_cons, get_price_eq_ok, get_price_eq_ok] at hc
      exact tick_eval_ok_ne_fetchError dA dB _ _ ft thr (Option.some.inj hc)

/-- C10 witness: a concrete fetch from the known venue name with sample
1/2, and a concrete tick of the two-venue configuration. -/
theorem C10_witness :
    (∃ p, get_price ⟨"Uniswap V3", "r1"⟩ "WETH" "USDC" (1/2) = Except.ok p
        ∧ (((Dex.mk "Uniswap V3" "r1").name = "Uniswap V3"
            ∨ (Dex.mk "Uniswap V3" "r1").name = "QuickSwap") →
              3500 ≤ p ∧ p ≤ 3510)
        ∧ (¬((Dex.mk "Uniswap V3" "r1").name = "Uniswap V3"
            ∨ (Dex.mk "Uniswap V3" "r1").name = "QuickSwap") → p = 3500))
    ∧ tick cfg2 1 0 0 ≠ some TickOutcome.fetchError :=
  ⟨C10_get_price_infallible.1 ⟨"Uniswap V3", "r1"⟩ "WETH" "USDC" (1/2)
      (by norm_num) (by norm_num),
    C10_get_price_infallible.2 cfg2 1 0 0⟩
